import Mathlib

/-!
Verification development for ExternalDisplayBridge (src/capture_bridge.cpp).

The file embeds the parts of the program the checked properties talk about:

* `Sys`, `Step`, `Reach` — an interleaved small-step model of the
  `TripleBuffer` handshake between the capture thread (`VideoStream::captureLoop`)
  and the main render loop, at the granularity of the individual atomic
  stores of `TripleBuffer::commitWrite` and the content write performed by
  `cap_.read(tb_.bufs[w])`.  The consumer's `drawFPS` mutation of the
  published slot and the `g_showFPS` toggle are also steps of this system.
* `TripleBufferIdx`, `commitWrite`, `runOps` — the index pair of
  `TripleBuffer` at whole-operation granularity.
* `CapState`, `captureIter` — one iteration of `VideoStream::captureLoop`.
* `SrcPix`, `bgr2bgra`, `psMain`, `presentPixel` — the upload row expansion
  of `DX11Renderer::uploadFrame` composed with the pixel shader `s_psCode`
  (8-bit UNORM values are tracked as exact byte values: an 8-bit UNORM
  round-trips through float sampling and UNORM render-target storage exactly).
* `computeViewport` — the letterbox arithmetic of `DX11Renderer::render`,
  over `ℚ` (the C++ code computes the same expressions in 32-bit float).
* `RState`, `ensureTexture`, `uploadFrame`, `render` — the adaptive texture
  lifecycle of `DX11Renderer`.
* `DxRes`, `dxInit`, `sessionTeardown` — the resources acquired by
  `DX11Renderer::init` and the two teardown paths of `main`.
* `mainIterAction` — the frame handling decision of one main-loop iteration.
-/

/-- Content of one of the three `cv::Mat` slots of `TripleBuffer::bufs`.
`empty` is the default-constructed (empty) `cv::Mat`; `torn` is a slot whose
byte content is currently mid-write (or left over from a failed read);
`frame k ov` is the completely written frame produced by the `k`-th successful
publish, with `ov = true` once `drawFPS` has drawn the overlay text into it. -/
inductive Slot where
  | empty : Slot
  | torn : Slot
  | frame (k : Nat) (ov : Bool) : Slot
  deriving DecidableEq

/-- Program counter of the capture thread inside one `captureLoop` iteration:
before `cap_.read`; while `cap_.read` is writing slot bytes; after `cap_.read`
returned (`ok` records `ok && !bufs[w].empty()`); and between the two atomic
stores of `TripleBuffer::commitWrite` (after `latest.store(w)` and before
`writing.store((w+1)%3)`). -/
inductive PC where
  | beforeRead : PC
  | midRead : PC
  | afterRead (ok : Bool) : PC
  | afterLatest : PC
  deriving DecidableEq

/-- Interleaved state of the `TripleBuffer` handshake plus the `g_showFPS`
flag.  `latest = none` models the initial `latest == -1`; `published` counts
how many `latest.store` publishes have happened. -/
structure Sys where
  slots : Fin 3 → Slot
  latest : Option (Fin 3)
  writing : Fin 3
  pc : PC
  published : Nat
  showFPS : Bool

/-- Initial state: `latest{-1}`, `writing{0}`, all three `cv::Mat` empty,
`g_showFPS = false`, capture thread about to call `cap_.read`. -/
def sysInit : Sys :=
  { slots := fun _ => Slot.empty, latest := none, writing := 0,
    pc := PC.beforeRead, published := 0, showFPS := false }

/-- `cap_.read(tb_.bufs[w])` starts overwriting the current write slot. -/
def doStartRead (s : Sys) : Sys :=
  { s with slots := Function.update s.slots s.writing Slot.torn, pc := PC.midRead }

/-- `cap_.read` finishes successfully with a non-empty frame: the write slot
now holds the complete content of what will be publish number `published + 1`. -/
def doFinishReadOk (s : Sys) : Sys :=
  { s with slots := Function.update s.slots s.writing (Slot.frame (s.published + 1) false),
           pc := PC.afterRead true }

/-- `cap_.read` fails (or leaves an empty frame): slot content stays garbage. -/
def doFinishReadFail (s : Sys) : Sys :=
  { s with pc := PC.afterRead false }

/-- Failed/empty read: `if (ok && ...)` is false, no commit, next iteration. -/
def doSkipCommit (s : Sys) : Sys :=
  { s with pc := PC.beforeRead }

/-- First store of `TripleBuffer::commitWrite`:
`latest.store(w, std::memory_order_release)`. -/
def doCommitLatest (s : Sys) : Sys :=
  { s with latest := some s.writing, published := s.published + 1, pc := PC.afterLatest }

/-- Second store of `TripleBuffer::commitWrite`:
`writing.store((w + 1) % 3, std::memory_order_relaxed)` (`Fin 3` addition
is the mod-3 rotation). -/
def doCommitWriting (s : Sys) : Sys :=
  { s with writing := s.writing + 1, pc := PC.beforeRead }

/-- Effect of `drawFPS` on a slot: `cv::putText` draws into the pixel data. -/
def markOverlay : Slot → Slot
  | Slot.frame k _ => Slot.frame k true
  | c => c

/-- The main loop calls `drawFPS(framePtr, ...)` on the frame returned by
`tryRead()`, writing overlay text directly into that slot's pixel buffer. -/
def doDrawFPS (s : Sys) (i : Fin 3) : Sys :=
  { s with slots := Function.update s.slots i (markOverlay (s.slots i)) }

/-- The key poll in the main loop flips `g_showFPS`. -/
def doToggleFPS (s : Sys) : Sys :=
  { s with showFPS := !s.showFPS }

/-- One interleaved step of the two threads.  The producer steps follow the
program order of `VideoStream::captureLoop` / `TripleBuffer::commitWrite`;
`drawFPS` fires only when the main loop holds a published frame and the
overlay flag is set (`if (g_showFPS) drawFPS(framePtr, ...)`). -/
inductive Step : Sys → Sys → Prop where
  | startRead (s : Sys) (h : s.pc = PC.beforeRead) : Step s (doStartRead s)
  | finishReadOk (s : Sys) (h : s.pc = PC.midRead) : Step s (doFinishReadOk s)
  | finishReadFail (s : Sys) (h : s.pc = PC.midRead) : Step s (doFinishReadFail s)
  | skipCommit (s : Sys) (h : s.pc = PC.afterRead false) : Step s (doSkipCommit s)
  | commitLatest (s : Sys) (h : s.pc = PC.afterRead true) : Step s (doCommitLatest s)
  | commitWriting (s : Sys) (h : s.pc = PC.afterLatest) : Step s (doCommitWriting s)
  | drawFPS (s : Sys) (i : Fin 3) (hL : s.latest = some i) (hF : s.showFPS = true) :
      Step s (doDrawFPS s i)
  | toggleFPS (s : Sys) : Step s (doToggleFPS s)

/-- States reachable from the initial `TripleBuffer` by interleaved steps. -/
inductive Reach : Sys → Prop where
  | init : Reach sysInit
  | step {s t : Sys} (hs : Reach s) (st : Step s t) : Reach t

/-- `TripleBuffer::tryRead`: sample `latest` (acquire) and return the slot it
names, or null when nothing has been published (`latest == -1`). -/
def tryRead (s : Sys) : Option Slot :=
  match s.latest with
  | none => none
  | some i => some (s.slots i)

/-- Inductive invariant of the handshake:
1. except between the two `commitWrite` stores, the write slot is never the
   latest slot;
2. the latest slot always holds the complete content of the most recent
   publish (possibly with the overlay drawn in);
3. once something has been published, `latest` never returns to null;
4. when the producer is about to publish, the write slot already holds the
   complete next frame (content write precedes the index flip);
5. between the two `commitWrite` stores, `latest` names the write slot. -/
def SysInv (s : Sys) : Prop :=
  (s.pc ≠ PC.afterLatest → ∀ i : Fin 3, s.latest = some i → i ≠ s.writing) ∧
  (∀ i : Fin 3, s.latest = some i → ∃ ov, s.slots i = Slot.frame s.published ov) ∧
  (1 ≤ s.published → s.latest ≠ none) ∧
  (s.pc = PC.afterRead true → ∃ ov, s.slots s.writing = Slot.frame (s.published + 1) ov) ∧
  (s.pc = PC.afterLatest → s.latest = some s.writing)

theorem sysInv_init : SysInv sysInit := by
  refine ⟨?_, ?_, ?_, ?_, ?_⟩ <;> simp [sysInit]

theorem sysInv_step {s t : Sys} (hInv : SysInv s) (st : Step s t) : SysInv t := by
  obtain ⟨h1, h2, h3, h4, h5⟩ := hInv
  cases st with
  | startRead h =>
      have hpc : s.pc ≠ PC.afterLatest := by rw [h]; simp
      refine ⟨?_, ?_, ?_, ?_, ?_⟩
      · intro _ i hi
        exact h1 hpc i hi
      · intro i hi
        have hiw : i ≠ s.writing := h1 hpc i hi
        simpa [doStartRead, Function.update_noteq hiw] using h2 i hi
      · intro hp
        exact h3 hp
      · intro hpc'
        simp [doStartRead] at hpc'
      · intro hpc'
        simp [doStartRead] at hpc'
  | finishReadOk h =>
      have hpc : s.pc ≠ PC.afterLatest := by rw [h]; simp
      refine ⟨?_, ?_, ?_, ?_, ?_⟩
      · intro _ i hi
        exact h1 hpc i hi
      · intro i hi
        have hiw : i ≠ s.writing := h1 hpc i hi
        simpa [doFinishReadOk, Function.update_noteq hiw] using h2 i hi
      · intro hp
        exact h3 hp
      · intro _
        exact ⟨false, by simp [doFinishReadOk]⟩
      · intro hpc'
        simp [doFinishReadOk] at hpc'
  | finishReadFail h =>
      refine ⟨?_, ?_, ?_, ?_, ?_⟩
      · intro _ i hi
        exact h1 (by rw [h]; simp) i hi
      · intro i hi
        exact h2 i hi
      · intro hp
        exact h3 hp
      · intro hpc'
        simp [doFinishReadFail] at hpc'
      · intro hpc'
        simp [doFinishReadFail] at hpc'
  | skipCommit h =>
      refine ⟨?_, ?_, ?_, ?_, ?_⟩
      · intro _ i hi
        exact h1 (by rw [h]; simp) i hi
      · intro i hi
        exact h2 i hi
      · intro hp
        exact h3 hp
      · intro hpc'
        simp [doSkipCommit] at hpc'
      · intro hpc'
        simp [doSkipCommit] at hpc'
  | commitLatest h =>
      refine ⟨?_, ?_, ?_, ?_, ?_⟩
      · intro hpc
        simp [doCommitLatest] at hpc
      · intro i hi
        have hi' : s.writing = i := by
          simpa [doCommitLatest] using hi
        subst hi'
        simpa [doCommitLatest] using h4 h
      · intro _
        simp [doCommitLatest]
      · intro hpc'
        simp [doCommitLatest] at hpc'
      · intro _
        simp [doCommitLatest]
  | commitWriting h =>
      refine ⟨?_, ?_, ?_, ?_, ?_⟩
      · intro _ i hi
        have hi' : s.latest = some i := hi
        have hw : s.latest = some s.writing := h5 h
        have : i = s.writing := by
          rw [hw] at hi'
          exact (Option.some.inj hi').symm
        subst this
        simp only [doCommitWriting]
        have : ∀ w : Fin 3, w ≠ w + 1 := by decide
        exact this s.writing
      · intro i hi
        exact h2 i hi
      · intro hp
        exact h3 hp
      · intro hpc'
        simp [doCommitWriting] at hpc'
      · intro hpc'
        simp [doCommitWriting] at hpc'
  | drawFPS i hL hF =>
      refine ⟨?_, ?_, ?_, ?_, ?_⟩
      · intro hpc j hj
        exact h1 hpc j hj
      · intro j hj
        have hj' : j = i := by
          have h' : s.latest = some j := hj
          rw [hL] at h'
          exact (Option.some.inj h').symm
        subst hj'
        obtain ⟨ov, hov⟩ := h2 j hj
        refine ⟨true, ?_⟩
        simp [doDrawFPS, Function.update_same, hov, markOverlay]
      · intro hp
        exact h3 hp
      · intro hpc'
        have hpc : s.pc = PC.afterRead true := hpc'
        have hne : s.writing ≠ i := by
          intro hcontra
          exact (h1 (by rw [hpc]; simp) i hL) hcontra.symm
        obtain ⟨ov, hov⟩ := h4 hpc
        refine ⟨ov, ?_⟩
        simp [doDrawFPS, Function.update_noteq hne, hov]
      · intro hpc'
        exact h5 hpc'
  | toggleFPS =>
      refine ⟨?_, ?_, ?_, ?_, ?_⟩
      · intro hpc j hj
        exact h1 hpc j hj
      · intro j hj
        exact h2 j hj
      · intro hp
        exact h3 hp
      · intro hpc'
        exact h4 hpc'
      · intro hpc'
        exact h5 hpc'

theorem reach_sysInv {s : Sys} (hs : Reach s) : SysInv s := by
  induction hs with
  | init => exact sysInv_init
  | step _ st ih => exact sysInv_step ih st

/-- C1: For any sequence of N publishes to the Frame Relay, a `tryRead()`
sampled after the k-th publish returns the k-th published frame's content or a
later one (publish number `j ≥ k`), never an earlier one and never a
torn/partial write; and a publish becomes visible to the reader only after the
frame content write is complete, because `commitWrite` flips the latest index
last: whenever the producer is at the point where `latest.store` is about to
execute, the write slot already holds the complete next frame. -/
theorem tryRead_monotone_and_untorn (s : Sys) (hs : Reach s) :
    (∀ k : Nat, 1 ≤ k → k ≤ s.published →
        ∃ j ov, tryRead s = some (Slot.frame j ov) ∧ k ≤ j) ∧
    (∀ c : Slot, tryRead s = some c → c ≠ Slot.torn ∧ c ≠ Slot.empty) ∧
    (s.pc = PC.afterRead true →
        ∃ ov, s.slots s.writing = Slot.frame (s.published + 1) ov) := by
  obtain ⟨h1, h2, h3, h4, h5⟩ := reach_sysInv hs
  refine ⟨?_, ?_, h4⟩
  · intro k hk hkp
    have hne : s.latest ≠ none := h3 (le_trans hk hkp)
    obtain ⟨i, hi⟩ := Option.ne_none_iff_exists'.mp hne
    obtain ⟨ov, hov⟩ := h2 i hi
    refine ⟨s.published, ov, ?_, hkp⟩
    simp [tryRead, hi, hov]
  · intro c hc
    cases hL : s.latest with
    | none => simp [tryRead, hL] at hc
    | some i =>
        obtain ⟨ov, hov⟩ := h2 i hL
        have : c = Slot.frame s.published ov := by
          simp [tryRead, hL, hov] at hc
          exact hc.symm
        subst this
        exact ⟨by simp, by simp⟩

/-- Witness for C1: after one successful capture and the `latest.store` of its
publish, `tryRead` returns the first published frame. -/
theorem tryRead_monotone_and_untorn_witness :
    ∃ j ov,
      tryRead (doCommitLatest (doFinishReadOk (doStartRead sysInit))) =
        some (Slot.frame j ov) ∧ 1 ≤ j := by
  have hr : Reach (doCommitLatest (doFinishReadOk (doStartRead sysInit))) :=
    Reach.step (Reach.step (Reach.step Reach.init (Step.startRead _ rfl))
      (Step.finishReadOk _ rfl)) (Step.commitLatest _ rfl)
  exact (tryRead_monotone_and_untorn _ hr).1 1 le_rfl (by decide)

/-- Reachable state used to exhibit the `drawFPS` mutation: the FPS overlay
has been toggled on, one frame has been captured and published, and the
capture thread is back at the top of its loop. -/
def overlayDemoState : Sys :=
  doCommitWriting (doCommitLatest (doFinishReadOk (doStartRead (doToggleFPS sysInit))))

theorem overlayDemoState_reach : Reach overlayDemoState :=
  Reach.step (Reach.step (Reach.step (Reach.step (Reach.step Reach.init
    (Step.toggleFPS sysInit)) (Step.startRead _ rfl)) (Step.finishReadOk _ rfl))
    (Step.commitLatest _ rfl)) (Step.commitWriting _ rfl)

/-- C3 counterexample: in a reachable state with the FPS overlay enabled, the
consumer's `drawFPS` step writes into exactly the slot returned by
`tryRead()` — slot 0, holding publish 1 — changing its pixel content
(`cv::putText` draws the overlay text directly into the published buffer; the
source explicitly draws "прямо в буфер" instead of cloning). -/
theorem drawFPS_mutates_published_slot :
    Reach overlayDemoState ∧
    Step overlayDemoState (doDrawFPS overlayDemoState 0) ∧
    tryRead overlayDemoState = some (Slot.frame 1 false) ∧
    (doDrawFPS overlayDemoState 0).slots 0 ≠ overlayDemoState.slots 0 := by
  refine ⟨overlayDemoState_reach, Step.drawFPS _ 0 (by decide) (by decide), by decide, by decide⟩

/-- C3 amended: once a frame slot is published, its pixel content is mutated
only by (a) the producer writing into the current write slot — which by the
relay invariant is never the latest slot, so a published frame is rewritten
only when the write pointer rotates back to its slot — or (b) the consumer's
`drawFPS` drawing the FPS overlay into the slot returned by `tryRead()` when
the overlay flag is set.  With the overlay flag clear, no operation mutates a
published slot while it is the latest slot. -/
theorem slot_mutation_characterized (s t : Sys) (hs : Reach s) (st : Step s t)
    (i : Fin 3) (hne : t.slots i ≠ s.slots i) :
    (i = s.writing ∧ s.latest ≠ some i) ∨ (s.latest = some i ∧ s.showFPS = true) := by
  obtain ⟨h1, _, _, _, _⟩ := reach_sysInv hs
  cases st with
  | startRead h =>
      left
      by_cases hiw : i = s.writing
      · refine ⟨hiw, ?_⟩
        intro hlat
        exact h1 (by rw [h]; simp) i hlat hiw
      · exact absurd (by simp [doStartRead, Function.update_noteq hiw]) hne
  | finishReadOk h =>
      left
      by_cases hiw : i = s.writing
      · refine ⟨hiw, ?_⟩
        intro hlat
        exact h1 (by rw [h]; simp) i hlat hiw
      · exact absurd (by simp [doFinishReadOk, Function.update_noteq hiw]) hne
  | finishReadFail h => exact absurd rfl hne
  | skipCommit h => exact absurd rfl hne
  | commitLatest h => exact absurd rfl hne
  | commitWriting h => exact absurd rfl hne
  | drawFPS j hL hF =>
      right
      by_cases hij : i = j
      · subst hij
        exact ⟨hL, hF⟩
      · exact absurd (by simp [doDrawFPS, Function.update_noteq hij]) hne
  | toggleFPS => exact absurd rfl hne

/-- Witness for C3's amended theorem: the very first `cap_.read` into slot 0
mutates the (unpublished) write slot, and the characterization classifies it
as a producer write into the current write slot. -/
theorem slot_mutation_characterized_witness :
    (0 = sysInit.writing ∧ sysInit.latest ≠ some 0) ∨
      (sysInit.latest = some 0 ∧ sysInit.showFPS = true) :=
  slot_mutation_characterized sysInit (doStartRead sysInit) Reach.init
    (Step.startRead _ rfl) 0 (by decide)

/-- The two atomic index fields of `TripleBuffer`, with the C++ types:
`std::atomic<int> latest{-1}; std::atomic<int> writing{0};`. -/
structure TripleBufferIdx where
  latest : Int
  writing : Int
  deriving DecidableEq

/-- Initial relay indices: `latest = -1`, `writing = 0`. -/
def tbInit : TripleBufferIdx := { latest := -1, writing := 0 }

/-- `TripleBuffer::commitWrite`: `latest.store(w); writing.store((w + 1) % 3)`
with `w = writing.load()`. -/
def commitWrite (tb : TripleBufferIdx) : TripleBufferIdx :=
  { latest := tb.writing, writing := (tb.writing + 1) % 3 }

/-- Relay operations at whole-call granularity. `read` is
`TripleBuffer::tryRead`, which does not change the relay state. -/
inductive TBOp where
  | commit : TBOp
  | read : TBOp
  deriving DecidableEq

def applyOp (tb : TripleBufferIdx) : TBOp → TripleBufferIdx
  | TBOp.commit => commitWrite tb
  | TBOp.read => tb

/-- Run a sequence of relay operations from a given state. -/
def runOps (tb : TripleBufferIdx) (ops : List TBOp) : TripleBufferIdx :=
  ops.foldl applyOp tb

/-- Strengthened invariant for the index pair: the write index stays in
`{0, 1, 2}` and differs from the latest index. -/
def TBInv (tb : TripleBufferIdx) : Prop :=
  (tb.writing = 0 ∨ tb.writing = 1 ∨ tb.writing = 2) ∧ tb.writing ≠ tb.latest

theorem tbInv_commitWrite {tb : TripleBufferIdx} (h : TBInv tb) :
    TBInv (commitWrite tb) := by
  obtain ⟨hr, _⟩ := h
  rcases hr with h0 | h0 | h0 <;> simp [TBInv, commitWrite, h0]

theorem tbInv_runOps {tb : TripleBufferIdx} (h : TBInv tb) (ops : List TBOp) :
    TBInv (runOps tb ops) := by
  induction ops generalizing tb with
  | nil => exact h
  | cons op rest ih =>
      cases op with
      | commit => exact ih (tbInv_commitWrite h)
      | read => exact ih h

/-- C2: for every relay state reachable from the initial state
(`latest = -1`, `writing = 0`) by any sequence of `commitWrite` and `tryRead`
operations, the write index differs from the latest index; moreover a further
`commitWrite` from any such state marks the current write slot as latest and
advances the write pointer to a slot distinct from the slot it just marked
latest. -/
theorem runOps_writing_ne_latest (ops : List TBOp) :
    (runOps tbInit ops).writing ≠ (runOps tbInit ops).latest ∧
    (commitWrite (runOps tbInit ops)).latest = (runOps tbInit ops).writing ∧
    (commitWrite (runOps tbInit ops)).writing ≠ (commitWrite (runOps tbInit ops)).latest := by
  have h : TBInv (runOps tbInit ops) := tbInv_runOps ⟨Or.inl rfl, by decide⟩ ops
  have h' : TBInv (commitWrite (runOps tbInit ops)) := tbInv_commitWrite h
  exact ⟨h.2, rfl, h'.2⟩

/-- Result of one `cap_.read(tb_.bufs[w])` call of the capture adapter:
the return flag and the `cv::Mat` content it leaves in the destination slot
(`none` models an empty `cv::Mat`, `some d` a non-empty frame with payload
`d`). -/
structure ReadRes where
  ok : Bool
  content : Option Nat
  deriving DecidableEq

/-- `TripleBuffer` indices together with the three buffer slots, indexed by
the C++ `int` write index. -/
structure CapState where
  idx : TripleBufferIdx
  bufs : Int → Option Nat

/-- One iteration of `VideoStream::captureLoop`:
`w = writing.load(); ok = cap_.read(bufs[w]); if (ok && !bufs[w].empty()) commitWrite();` -/
def captureIter (s : CapState) (r : ReadRes) : CapState :=
  let w := s.idx.writing
  let s1 : CapState := { s with bufs := Function.update s.bufs w r.content }
  if r.ok = true ∧ s1.bufs w ≠ none then { s1 with idx := commitWrite s1.idx } else s1

/-- The capture loop just runs `captureIter` on every adapter result in turn:
there is no backoff state, retry counter, or error channel in the loop. -/
def captureRun (s : CapState) (rs : List ReadRes) : CapState :=
  rs.foldl captureIter s

theorem captureRun_fail_idx (s : CapState) (n : Nat) :
    (captureRun s (List.replicate n ⟨false, none⟩)).idx = s.idx := by
  induction n generalizing s with
  | zero => rfl
  | succ m ih =>
      have hstep : (captureIter s ⟨false, none⟩).idx = s.idx := by
        simp [captureIter]
      rw [List.replicate_succ]
      show (captureRun (captureIter s ⟨false, none⟩) (List.replicate m ⟨false, none⟩)).idx = s.idx
      rw [ih (captureIter s ⟨false, none⟩), hstep]

/-- C4: in every capture-loop iteration the frame is published (`commitWrite`
runs) if and only if the adapter read succeeded and left a non-empty frame in
the current write slot; a failed or empty read leaves the relay indices
unchanged (and produces no error value — `captureIter` has no error channel,
matching the loop's lack of any reporting); and there is no backoff or retry
limit: any number of consecutive failed reads leaves the relay indices
unchanged, after which a successful read still publishes into the same write
slot. -/
theorem captureIter_publish_iff (s : CapState) (r : ReadRes) :
    ((r.ok = true ∧ r.content ≠ none) →
        (captureIter s r).idx.latest = s.idx.writing ∧
        (captureIter s r).idx.writing = (s.idx.writing + 1) % 3) ∧
    (¬(r.ok = true ∧ r.content ≠ none) →
        (captureIter s r).idx = s.idx) ∧
    (∀ n : Nat,
        (captureRun s (List.replicate n ⟨false, none⟩)).idx = s.idx ∧
        ((r.ok = true ∧ r.content ≠ none) →
          (captureIter (captureRun s (List.replicate n ⟨false, none⟩)) r).idx.latest =
            s.idx.writing)) := by
  have hgood : (r.ok = true ∧ r.content ≠ none) →
      (captureIter s r).idx.latest = s.idx.writing ∧
      (captureIter s r).idx.writing = (s.idx.writing + 1) % 3 := by
    intro ⟨hok, hc⟩
    simp [captureIter, hok, hc, commitWrite]
  refine ⟨hgood, ?_, ?_⟩
  · intro hbad
    simp only [captureIter]
    rw [if_neg (by simpa using hbad)]
  · intro n
    refine ⟨captureRun_fail_idx s n, ?_⟩
    intro ⟨hok, hc⟩
    simp [captureIter, hok, hc, commitWrite, captureRun_fail_idx s n]

/-- Witness for C4: from the initial relay, a successful non-empty read
publishes slot 0 and advances the write index to 1; a failed read changes
neither index; five consecutive failures leave the indices unchanged and a
following good read still publishes slot 0. -/
theorem captureIter_publish_iff_witness :
    ((true = true ∧ (some 7 : Option Nat) ≠ none) →
        (captureIter ⟨tbInit, fun _ => none⟩ ⟨true, some 7⟩).idx.latest = tbInit.writing ∧
        (captureIter ⟨tbInit, fun _ => none⟩ ⟨true, some 7⟩).idx.writing = (tbInit.writing + 1) % 3) ∧
    (¬(false = true ∧ (none : Option Nat) ≠ none) →
        (captureIter ⟨tbInit, fun _ => none⟩ ⟨false, none⟩).idx = tbInit) ∧
    (captureRun ⟨tbInit, fun _ => none⟩ (List.replicate 5 ⟨false, none⟩)).idx = tbInit := by
  refine ⟨(captureIter_publish_iff ⟨tbInit, fun _ => none⟩ ⟨true, some 7⟩).1,
          (captureIter_publish_iff ⟨tbInit, fun _ => none⟩ ⟨false, none⟩).2.1,
          ((captureIter_publish_iff ⟨tbInit, fun _ => none⟩ ⟨false, none⟩).2.2 5).1⟩

/-- A 3-channel packed source pixel in OpenCV BGR byte order
(`frame` is `CV_8UC3`): byte 0 = B, byte 1 = G, byte 2 = R. -/
structure SrcPix where
  b : Nat
  g : Nat
  r : Nat
  deriving DecidableEq

/-- One texel of the `DXGI_FORMAT_R8G8B8A8_UNORM` dynamic texture, as the
four bytes written to the mapped row (`c0` first in memory). -/
structure Texel where
  c0 : Nat
  c1 : Nat
  c2 : Nat
  c3 : Nat
  deriving DecidableEq

/-- The per-pixel effect of `cv::cvtColor(srcRow, bgraRow, cv::COLOR_BGR2BGRA)`
in `DX11Renderer::uploadFrame`: copy B, G, R and append the constant
full-opacity alpha byte 255. -/
def bgr2bgra (p : SrcPix) : Texel :=
  ⟨p.b, p.g, p.r, 255⟩

/-- The row expansion of `uploadFrame`: each 3-channel source row is expanded
pixel-by-pixel to 4 channels and memcpy'd into the mapped texture row. -/
def expandRow (row : List SrcPix) : List Texel :=
  row.map bgr2bgra

/-- A shader-side color value.  Channel values are kept as the exact byte
they came from: an 8-bit UNORM value v is sampled as v/255 and a render
target in an 8-bit UNORM format stores round(x*255), so byte values
round-trip exactly and 1.0f stores as 255. -/
structure RGBA where
  r : Nat
  g : Nat
  b : Nat
  a : Nat
  deriving DecidableEq

/-- Point-sampling a `R8G8B8A8_UNORM` texel (`sam` is a
`D3D11_FILTER_MIN_MAG_MIP_POINT` sampler, so sampling returns one texel
unfiltered): memory byte 0 is the R channel, byte 1 G, byte 2 B, byte 3 A. -/
def sampleTexel (t : Texel) : RGBA :=
  ⟨t.c0, t.c1, t.c2, t.c3⟩

/-- The pixel shader `s_psCode`:
`float4 c = tex.Sample(sam, i.uv); return float4(c.b, c.g, c.r, 1.0f);` -/
def psMain (c : RGBA) : RGBA :=
  ⟨c.b, c.g, c.r, 255⟩

/-- The color a source pixel presents with at the output: upload row
expansion, texture sampling, then the shader channel swap. -/
def presentPixel (p : SrcPix) : RGBA :=
  psMain (sampleTexel (bgr2bgra p))

/-- C5: for every uploaded 3-channel source pixel (B, G, R), the composition
of `uploadFrame`'s row expansion (which appends a constant full-opacity
alpha) and the pixel shader's channel swap presents the output pixel
(R, G, B) with full opacity and no channel value altered (exact at the byte
level, which is what "beyond format-rounding precision" comes to for 8-bit
UNORM); in particular source (B=10, G=20, R=30) presents as
(R=30, G=20, B=10, A=255), and this holds for every pixel of an expanded row. -/
theorem presentPixel_swaps_channels :
    (∀ p : SrcPix, (bgr2bgra p).c3 = 255 ∧ presentPixel p = ⟨p.r, p.g, p.b, 255⟩) ∧
    presentPixel ⟨10, 20, 30⟩ = ⟨30, 20, 10, 255⟩ ∧
    (∀ (row : List SrcPix) (p : SrcPix), p ∈ row →
        Texel.mk p.b p.g p.r 255 ∈ expandRow row) := by
  refine ⟨fun p => ⟨rfl, rfl⟩, rfl, ?_⟩
  intro row p hp
  exact List.mem_map_of_mem bgr2bgra hp

/-- The viewport arithmetic of `DX11Renderer::render`, over `ℚ` (the C++
code evaluates the same expressions in 32-bit float):
`scaleX = winW/texW; scaleY = winH/texH; scale = min(scaleX, scaleY);
vpW = texW*scale; vpH = texH*scale; vpX = (winW-vpW)*0.5; vpY = (winH-vpH)*0.5`.
Returned as `(vpX, vpY, vpW, vpH)`. -/
def computeViewport (winW winH texW texH : ℚ) : ℚ × ℚ × ℚ × ℚ :=
  let scaleX := winW / texW
  let scaleY := winH / texH
  let scale := min scaleX scaleY
  let vpW := texW * scale
  let vpH := texH * scale
  ((winW - vpW) * (1 / 2), (winH - vpH) * (1 / 2), vpW, vpH)

/-- C6: for every positive texture size and output size, `render` computes the
viewport with `scale = min(winW/texW, winH/texH)`, viewport size =
texture size × scale; the viewport fits in the output, is centered (the
offset on each axis is half the leftover, so the two margins of an axis are
equal), and there is a margin on at most one axis (the minimizing axis fills
the output exactly). -/
theorem computeViewport_letterbox (winW winH texW texH : ℚ)
    (_hW : 0 < winW) (_hH : 0 < winH) (htW : 0 < texW) (htH : 0 < texH) :
    ((computeViewport winW winH texW texH).2.2.1 ≤ winW ∧
        (computeViewport winW winH texW texH).2.2.2 ≤ winH) ∧
    ((computeViewport winW winH texW texH).2.2.1 = winW ∨
        (computeViewport winW winH texW texH).2.2.2 = winH) ∧
    (2 * (computeViewport winW winH texW texH).1 +
        (computeViewport winW winH texW texH).2.2.1 = winW ∧
     2 * (computeViewport winW winH texW texH).2.1 +
        (computeViewport winW winH texW texH).2.2.2 = winH) ∧
    (0 ≤ (computeViewport winW winH texW texH).1 ∧
        0 ≤ (computeViewport winW winH texW texH).2.1) ∧
    ((computeViewport winW winH texW texH).2.2.1 =
        texW * min (winW / texW) (winH / texH) ∧
     (computeViewport winW winH texW texH).2.2.2 =
        texH * min (winW / texW) (winH / texH)) := by
  have htW' : texW ≠ 0 := ne_of_gt htW
  have htH' : texH ≠ 0 := ne_of_gt htH
  have hvW : texW * min (winW / texW) (winH / texH) ≤ winW := by
    calc texW * min (winW / texW) (winH / texH)
        ≤ texW * (winW / texW) := by
          exact mul_le_mul_of_nonneg_left (min_le_left _ _) (le_of_lt htW)
      _ = winW := by field_simp
  have hvH : texH * min (winW / texW) (winH / texH) ≤ winH := by
    calc texH * min (winW / texW) (winH / texH)
        ≤ texH * (winH / texH) := by
          exact mul_le_mul_of_nonneg_left (min_le_right _ _) (le_of_lt htH)
      _ = winH := by field_simp
  have hone : texW * min (winW / texW) (winH / texH) = winW ∨
      texH * min (winW / texW) (winH / texH) = winH := by
    rcases le_total (winW / texW) (winH / texH) with hle | hle
    · left
      rw [min_eq_left hle]
      field_simp
    · right
      rw [min_eq_right hle]
      field_simp
  refine ⟨⟨hvW, hvH⟩, hone, ⟨by simp only [computeViewport]; ring,
    by simp only [computeViewport]; ring⟩, ⟨?_, ?_⟩, rfl, rfl⟩
  · have := hvW
    simp only [computeViewport]
    nlinarith
  · have := hvH
    simp only [computeViewport]
    nlinarith

/-- Witness for C6: the claim's own example, texture 1920×1080 letterboxed
into a 1280×1024 output: scale is exactly 2/3, the viewport is 1280×720 at
offset (0, 152) — the x axis fills the output exactly and the margin is on
exactly one axis (y). -/
theorem computeViewport_letterbox_witness :
    ((0:ℚ) < 1280 ∧ (0:ℚ) < 1024 ∧ (0:ℚ) < 1920 ∧ (0:ℚ) < 1080) ∧
    min ((1280:ℚ) / 1920) ((1024:ℚ) / 1080) = 2 / 3 ∧
    computeViewport 1280 1024 1920 1080 = (0, 152, 1280, 720) ∧
    ((computeViewport 1280 1024 1920 1080).2.2.1 = 1280 ∧
        (computeViewport 1280 1024 1920 1080).2.2.2 < 1024) ∧
    ((computeViewport 1280 1024 1920 1080).2.2.1 = 1280 ∨
        (computeViewport 1280 1024 1920 1080).2.2.2 = 1024) := by
  have hmin : min ((1280:ℚ) / 1920) ((1024:ℚ) / 1080) = 2 / 3 := by
    rw [min_eq_left (by norm_num)]
    norm_num
  refine ⟨⟨by norm_num, by norm_num, by norm_num, by norm_num⟩, hmin, ?_, ?_, ?_⟩
  · simp only [computeViewport, hmin]
    norm_num
  · constructor <;> simp only [computeViewport, hmin] <;> norm_num
  · exact (computeViewport_letterbox 1280 1024 1920 1080
      (by norm_num) (by norm_num) (by norm_num) (by norm_num)).2.1

/-- Texture-related state of `DX11Renderer`: the cached dimensions
`texW/texH` (C++ `int`, initialized 0), the dynamic texture and its shader
resource view (`none` = null pointer; `some g` tags the live allocation with
a generation number so that distinct allocations are distinguishable), and an
allocation counter `nextGen` standing for the fact that a newly created GPU
texture is a fresh allocation. -/
structure RState where
  texW : Int
  texH : Int
  dynTex : Option Nat
  srv : Option Nat
  nextGen : Nat
  deriving DecidableEq

/-- Renderer state right after `DX11Renderer::init`: no texture yet,
`texW = texH = 0`. -/
def rInit : RState := ⟨0, 0, none, none, 0⟩

/-- `DX11Renderer::ensureTexture(w, h)`.  `createOk` is the result of the
`device->CreateTexture2D` call.  If the cached dimensions already match, it
returns immediately.  Otherwise it releases the old view and texture first,
then attempts creation: on failure it returns with the cached dimensions
UNCHANGED (the code prints to stderr and returns before `texW = w; texH = h`);
on success it creates the view (the `CreateShaderResourceView` result is not
checked in the code) and updates the cached dimensions. -/
def ensureTexture (s : RState) (w h : Int) (createOk : Bool) : RState :=
  if s.texW = w ∧ s.texH = h then s
  else
    let s1 : RState := { s with srv := none, dynTex := none }
    if createOk then
      { s1 with dynTex := some s.nextGen, srv := some s.nextGen,
                texW := w, texH := h, nextGen := s.nextGen + 1 }
    else s1

/-- `DX11Renderer::uploadFrame(frame)` for a frame of size w×h.  `createOk`
and `mapOk` are the results of `CreateTexture2D` and `ctx->Map`.  Returns the
new state and whether pixel data was actually uploaded: after
`ensureTexture`, a null `dynTex` or a failed `Map` returns without copying. -/
def uploadFrame (s : RState) (w h : Int) (createOk mapOk : Bool) : RState × Bool :=
  let s1 := ensureTexture s w h createOk
  if s1.dynTex = none then (s1, false)
  else if mapOk = false then (s1, false)
  else (s1, true)

/-- `DX11Renderer::render`: with a null `srv` it returns immediately (no
draw, no present); otherwise it draws with the viewport computed by
`computeViewport` from the output size and the cached texture size. -/
def render (s : RState) (winW winH : ℚ) : Option (ℚ × ℚ × ℚ × ℚ) :=
  if s.srv = none then none
  else some (computeViewport winW winH (s.texW : ℚ) (s.texH : ℚ))

/-- C7: `uploadFrame` recreates the GPU texture and its view exactly when the
incoming frame's dimensions differ from the cached texture dimensions
(destroying the old allocation first and allocating a fresh one — the new
generation tag is new, so the old allocation is not reused), and leaves them
untouched when the dimensions are equal; after sequential uploads of a
1920×1080 frame and then a 1280×720 frame, the texture is a different, fresh
allocation and a subsequent `render` uses 1280×720 as the texture size in its
viewport computation. -/
theorem uploadFrame_adaptive_resize (s : RState) (w h : Int) (ok mapOk : Bool) :
    (s.texW = w ∧ s.texH = h →
        ensureTexture s w h ok = s ∧ (uploadFrame s w h ok mapOk).1 = s) ∧
    (¬(s.texW = w ∧ s.texH = h) →
        (ensureTexture s w h true).dynTex = some s.nextGen ∧
        (ensureTexture s w h true).srv = some s.nextGen ∧
        (ensureTexture s w h true).texW = w ∧
        (ensureTexture s w h true).texH = h ∧
        s.nextGen < (ensureTexture s w h true).nextGen ∧
        (∀ g : Nat, s.dynTex = some g → g < s.nextGen →
            (ensureTexture s w h true).dynTex ≠ some g)) ∧
    ((uploadFrame ((uploadFrame rInit 1920 1080 true true).1) 1280 720 true true).1.dynTex ≠
        (uploadFrame rInit 1920 1080 true true).1.dynTex ∧
     (uploadFrame rInit 1920 1080 true true).1.dynTex = some 0 ∧
     (uploadFrame ((uploadFrame rInit 1920 1080 true true).1) 1280 720 true true).1.dynTex = some 1 ∧
     (uploadFrame ((uploadFrame rInit 1920 1080 true true).1) 1280 720 true true).1.texW = 1280 ∧
     (uploadFrame ((uploadFrame rInit 1920 1080 true true).1) 1280 720 true true).1.texH = 720 ∧
     render (uploadFrame ((uploadFrame rInit 1920 1080 true true).1) 1280 720 true true).1
         1280 1024 = some (computeViewport 1280 1024 1280 720)) := by
  refine ⟨?_, ?_, ?_⟩
  · intro hEq
    have h1 : ensureTexture s w h ok = s := by
      simp [ensureTexture, hEq]
    refine ⟨h1, ?_⟩
    simp only [uploadFrame, h1]
    by_cases hd : s.dynTex = none
    · simp [hd]
    · by_cases hm : mapOk = false <;> simp [hd, hm]
  · intro hNe
    refine ⟨?_, ?_, ?_, ?_, ?_, ?_⟩ <;> simp [ensureTexture, hNe]
    intro g hg hlt hcontra
    omega
  · refine ⟨?_, ?_, ?_, ?_, ?_, ?_⟩ <;>
      simp [uploadFrame, ensureTexture, rInit, render]

/-- Witness for C7: the equal-dimension branch applied after the first
successful upload (a second 1920×1080 upload leaves the state untouched),
and the differing-dimension branch applied to the fresh renderer. -/
theorem uploadFrame_adaptive_resize_witness :
    (((uploadFrame rInit 1920 1080 true true).1.texW = 1920 ∧
        (uploadFrame rInit 1920 1080 true true).1.texH = 1080) ∧
      ensureTexture ((uploadFrame rInit 1920 1080 true true).1) 1920 1080 true =
        (uploadFrame rInit 1920 1080 true true).1) ∧
    (¬(rInit.texW = 1920 ∧ rInit.texH = 1080) ∧
      (ensureTexture rInit 1920 1080 true).dynTex = some rInit.nextGen) := by
  have hdims : (uploadFrame rInit 1920 1080 true true).1.texW = 1920 ∧
      (uploadFrame rInit 1920 1080 true true).1.texH = 1080 := by
    constructor <;> simp [uploadFrame, ensureTexture, rInit]
  refine ⟨⟨hdims, ?_⟩, ⟨by simp [rInit], ?_⟩⟩
  · exact ((uploadFrame_adaptive_resize ((uploadFrame rInit 1920 1080 true true).1)
      1920 1080 true true).1 hdims).1
  · exact ((uploadFrame_adaptive_resize rInit 1920 1080 true true).2.1
      (by simp [rInit])).1

/-- C10: if `CreateTexture2D` fails inside `ensureTexture` during a dimension
change, the old texture and view have already been destroyed but the cached
dimensions keep their previous values; consequently every subsequent
`uploadFrame` whose frame has those previous dimensions returns without
uploading (the dimension check matches, so no recreation is attempted and
`dynTex` is still null), `render` returns without drawing or presenting
(`srv` is null), and no error is propagated to the caller (`ensureTexture`,
`uploadFrame` and `render` are `void`; the model's functions likewise have no
error channel) — while an upload at the new (failed) dimensions retries
creation. -/
theorem ensureTexture_failure_stale_dims (s : RState) (w0 h0 w1 h1 : Int)
    (hs : s.texW = w0 ∧ s.texH = h0) (hdim : ¬(w0 = w1 ∧ h0 = h1)) :
    (ensureTexture s w1 h1 false).dynTex = none ∧
    (ensureTexture s w1 h1 false).srv = none ∧
    (ensureTexture s w1 h1 false).texW = w0 ∧
    (ensureTexture s w1 h1 false).texH = h0 ∧
    (∀ ok mapOk : Bool,
        (uploadFrame (ensureTexture s w1 h1 false) w0 h0 ok mapOk).2 = false ∧
        (uploadFrame (ensureTexture s w1 h1 false) w0 h0 ok mapOk).1 =
          ensureTexture s w1 h1 false) ∧
    (∀ winW winH : ℚ, render (ensureTexture s w1 h1 false) winW winH = none) ∧
    ((uploadFrame (ensureTexture s w1 h1 false) w1 h1 true true).1.dynTex =
        some (ensureTexture s w1 h1 false).nextGen ∧
     (uploadFrame (ensureTexture s w1 h1 false) w1 h1 true true).2 = true) := by
  obtain ⟨hw, hh⟩ := hs
  have hno : ¬(s.texW = w1 ∧ s.texH = h1) := by
    rw [hw, hh]
    exact hdim
  have hfail : ensureTexture s w1 h1 false =
      { s with srv := none, dynTex := none } := by
    simp [ensureTexture, hno]
  rw [hfail]
  refine ⟨rfl, rfl, hw, hh, ?_, ?_, ?_⟩
  · intro ok mapOk
    have hmatch : ensureTexture { s with srv := none, dynTex := none } w0 h0 ok =
        { s with srv := none, dynTex := none } := by
      simp [ensureTexture, hw, hh]
    constructor <;> simp [uploadFrame, hmatch]
  · intro winW winH
    simp [render]
  · constructor <;> simp [uploadFrame, ensureTexture, hno]

/-- Witness for C10: a healthy 1920×1080 renderer state hits a failing
texture creation while resizing to 1280×720.  The stale cached size is
1920×1080, a 1920×1080 upload performs no upload, and `render` draws
nothing. -/
theorem ensureTexture_failure_stale_dims_witness :
    ((uploadFrame rInit 1920 1080 true true).1.texW = 1920 ∧
        (uploadFrame rInit 1920 1080 true true).1.texH = 1080) ∧
    ¬((1920:Int) = 1280 ∧ (1080:Int) = 720) ∧
    (ensureTexture ((uploadFrame rInit 1920 1080 true true).1) 1280 720 false).texW = 1920 ∧
    (uploadFrame (ensureTexture ((uploadFrame rInit 1920 1080 true true).1) 1280 720 false)
        1920 1080 true true).2 = false ∧
    render (ensureTexture ((uploadFrame rInit 1920 1080 true true).1) 1280 720 false)
        1280 1024 = none := by
  have hdims : (uploadFrame rInit 1920 1080 true true).1.texW = 1920 ∧
      (uploadFrame rInit 1920 1080 true true).1.texH = 1080 := by
    constructor <;> simp [uploadFrame, ensureTexture, rInit]
  have hne : ¬((1920:Int) = 1280 ∧ (1080:Int) = 720) := by
    intro h
    exact absurd h.1 (by decide)
  have happ := ensureTexture_failure_stale_dims
    ((uploadFrame rInit 1920 1080 true true).1) 1920 1080 1280 720 hdims hne
  exact ⟨hdims, hne, happ.2.2.1,
    (happ.2.2.2.2.1 true true).1, happ.2.2.2.2.2.1 1280 1024⟩

/-- Which step of `DX11Renderer::init` fails (or none).  The failure points
mirror the code's early returns: `D3D11CreateDevice`,
`CreateSwapChainForHwnd`, `rebuildRTV`, and the two `D3DCompile`+create pairs
in `compileShaders`. -/
inductive InitOutcome where
  | ok : InitOutcome
  | failDevice : InitOutcome
  | failSwapChain : InitOutcome
  | failRTV : InitOutcome
  | failVS : InitOutcome
  | failPS : InitOutcome
  deriving DecidableEq, Fintype

/-- Which COM/GPU objects referenced from `DX11Renderer` (plus the
`IDXGIFactory2` local of `init`) are currently alive (a reference is held
that has not been `Release()`d).  The other locals of `init` — `dxgiDev`,
`adapter`, `f5`, `f1`, the back buffer of `rebuildRTV` and the shader blobs —
are acquired and released inside a single branch on every path, so they are
not tracked. -/
structure DxRes where
  device : Bool
  ctx : Bool
  factory : Bool
  swapChain : Bool
  rtv : Bool
  vs : Bool
  ps : Bool
  sampler : Bool
  dynTex : Bool
  srv : Bool
  deriving DecidableEq

/-- No resource held. -/
def dxNone : DxRes :=
  ⟨false, false, false, false, false, false, false, false, false, false⟩

/-- `DX11Renderer::init`, tracking acquisitions and releases along each
path.  Returns the `bool` result of `init` and the set of still-held
resources at the moment `init` returns:
- `D3D11CreateDevice` fails → return false, nothing acquired;
- otherwise device and context are alive, the factory is obtained;
- `CreateSwapChainForHwnd` fails → factory released, return false
  (device and context still held);
- otherwise the swap chain is alive and the factory released;
- `rebuildRTV` fails → return false (device, context, swap chain held);
- vertex-shader compilation fails → return false (+ rtv held);
- pixel-shader compilation fails → return false (+ vs held);
- otherwise the sampler is created and `init` returns true. -/
def dxInit (o : InitOutcome) : Bool × DxRes :=
  if o = InitOutcome.failDevice then (false, dxNone)
  else
    let s1 : DxRes := { dxNone with device := true, ctx := true, factory := true }
    if o = InitOutcome.failSwapChain then (false, { s1 with factory := false })
    else
      let s3 : DxRes := { s1 with swapChain := true, factory := false }
      if o = InitOutcome.failRTV then (false, s3)
      else
        let s4 : DxRes := { s3 with rtv := true }
        if o = InitOutcome.failVS then (false, s4)
        else
          let s5 : DxRes := { s4 with vs := true }
          if o = InitOutcome.failPS then (false, s5)
          else (true, { s5 with ps := true, sampler := true })

/-- `DX11Renderer::release`: every member is released behind a null guard,
so afterwards nothing is held. -/
def dxRelease (_ : DxRes) : DxRes := dxNone

/-- The resources still held when the session ends, per `main`:
on `init` success the main loop runs and then `dx.release()` is called;
on `init` failure `main` prints an error and returns WITHOUT calling
`dx.release()` (`if (!dx.init(hwnd, winW, winH)) { ...; vs.stop();
allowSleep(); return 1; }`). -/
def sessionTeardown (o : InitOutcome) : DxRes :=
  match dxInit o with
  | (true, s) => dxRelease s
  | (false, s) => s

/-- C8 counterexample: the claim that the early-initialization-failure path
releases every already-acquired resource is false — when swap-chain creation
fails, `main` returns without calling `dx.release()`, so the already-created
device and immediate context are still held when the session ends. -/
theorem init_failure_leaks_device :
    (sessionTeardown InitOutcome.failSwapChain).device = true ∧
    (sessionTeardown InitOutcome.failSwapChain).ctx = true ∧
    sessionTeardown InitOutcome.failSwapChain ≠ dxNone := by
  refine ⟨rfl, rfl, by decide⟩

/-- C8 amended: on the normal path every resource acquired during `init` is
released by the final `dx.release()` (zero leaks), and `init` itself never
leaks its factory local on any path; but on the early-initialization-failure
paths `main` returns without calling `dx.release()`, so exactly the member
resources acquired before the failing step stay held: nothing for a device
failure, device+context for a swap-chain failure, device+context+swapChain
for an RTV failure, and so on. -/
theorem sessionTeardown_characterized :
    sessionTeardown InitOutcome.ok = dxNone ∧
    (∀ o : InitOutcome, (dxInit o).2.factory = false) ∧
    sessionTeardown InitOutcome.failDevice = dxNone ∧
    sessionTeardown InitOutcome.failSwapChain =
      { dxNone with device := true, ctx := true } ∧
    sessionTeardown InitOutcome.failRTV =
      { dxNone with device := true, ctx := true, swapChain := true } ∧
    sessionTeardown InitOutcome.failVS =
      { dxNone with device := true, ctx := true, swapChain := true, rtv := true } ∧
    sessionTeardown InitOutcome.failPS =
      { dxNone with device := true, ctx := true, swapChain := true, rtv := true,
                    vs := true } := by
  refine ⟨rfl, by decide, rfl, rfl, rfl, rfl, rfl⟩

/-- What one main-loop iteration does with the value sampled from
`tryRead()`. `skipSleep ms` is `Sleep(ms); continue;` (no upload, no
render); `display c` is the drawFPS?/`uploadFrame`/`render` sequence on the
frame `c`. -/
inductive IterAction where
  | skipSleep (ms : Nat) : IterAction
  | display (c : Slot) : IterAction
  deriving DecidableEq

/-- The frame-handling decision of one iteration of `main`'s render loop:
`cv::Mat* framePtr = tb.tryRead();
 if (!framePtr || framePtr->empty()) { Sleep(1); continue; }
 ... dx.uploadFrame(*framePtr); dx.render();`
The loop keeps no record of the previously displayed frame: the decision
depends only on the current `tryRead()` result. -/
def mainIterAction (r : Option Slot) : IterAction :=
  match r with
  | none => IterAction.skipSleep 1
  | some c => if c = Slot.empty then IterAction.skipSleep 1 else IterAction.display c

/-- C9 counterexample: when `tryRead()` returns the same frame as the
previously displayed one (here: publish 1 was displayed by the previous
iteration and is sampled again), the iteration uploads and renders it again —
it does not yield and skip, because the loop performs no same-frame check.
The claim's "returns none" half does hold (second conjunct). -/
theorem same_frame_redisplayed :
    mainIterAction (some (Slot.frame 1 false)) = IterAction.display (Slot.frame 1 false) ∧
    mainIterAction none = IterAction.skipSleep 1 ∧
    mainIterAction (some (Slot.frame 1 false)) ≠ IterAction.skipSleep 1 := by
  refine ⟨rfl, rfl, by decide⟩

/-- C9 amended: the consumer never blocks waiting for a frame: every
iteration either sleeps exactly 1 ms and skips upload/render — precisely when
`tryRead()` returns null or an empty frame — or uploads and renders the
sampled frame, even when it is identical to the previously displayed one
(there is no same-frame check).  In a reachable relay state with at least one
publish, the iteration always displays. -/
theorem mainIter_never_blocks (r : Option Slot) (s : Sys) (hs : Reach s)
    (hp : 1 ≤ s.published) :
    (mainIterAction r = IterAction.skipSleep 1 ↔ (r = none ∨ r = some Slot.empty)) ∧
    (∀ c : Slot, c ≠ Slot.empty → mainIterAction (some c) = IterAction.display c) ∧
    (mainIterAction r = IterAction.skipSleep 1 ∨
        ∃ c : Slot, mainIterAction r = IterAction.display c) ∧
    (∃ j ov, mainIterAction (tryRead s) = IterAction.display (Slot.frame j ov) ∧ 1 ≤ j) := by
  refine ⟨?_, ?_, ?_, ?_⟩
  · cases r with
    | none => simp [mainIterAction]
    | some c =>
        by_cases hc : c = Slot.empty <;> simp [mainIterAction, hc]
  · intro c hc
    simp [mainIterAction, hc]
  · cases r with
    | none => exact Or.inl rfl
    | some c =>
        by_cases hc : c = Slot.empty
        · exact Or.inl (by simp [mainIterAction, hc])
        · exact Or.inr ⟨c, by simp [mainIterAction, hc]⟩
  · obtain ⟨_, h2, h3, _, _⟩ := reach_sysInv hs
    have hne : s.latest ≠ none := h3 hp
    obtain ⟨i, hi⟩ := Option.ne_none_iff_exists'.mp hne
    obtain ⟨ov, hov⟩ := h2 i hi
    refine ⟨s.published, ov, ?_, hp⟩
    simp [tryRead, hi, hov, mainIterAction]

/-- Witness for C9's amended theorem, at the reachable state with one
publish used throughout: the sampled frame is displayed, not slept on. -/
theorem mainIter_never_blocks_witness :
    ∃ j ov,
      mainIterAction (tryRead (doCommitLatest (doFinishReadOk (doStartRead sysInit)))) =
        IterAction.display (Slot.frame j ov) ∧ 1 ≤ j := by
  have hr : Reach (doCommitLatest (doFinishReadOk (doStartRead sysInit))) :=
    Reach.step (Reach.step (Reach.step Reach.init (Step.startRead _ rfl))
      (Step.finishReadOk _ rfl)) (Step.commitLatest _ rfl)
  exact (mainIter_never_blocks none _ hr (by decide)).2.2.2

/-- Witness for C5's row conjunct: the example pixel, as the sole member of a
one-pixel row, is expanded to the BGRA texel (10, 20, 30, 255). -/
theorem presentPixel_swaps_channels_witness :
    Texel.mk 10 20 30 255 ∈ expandRow [SrcPix.mk 10 20 30] :=
  presentPixel_swaps_channels.2.2 [SrcPix.mk 10 20 30] (SrcPix.mk 10 20 30)
    (List.mem_singleton.mpr rfl)
